/-
Verification of the torrent-monitor eviction/reprioritization engine
(src/torrent-monitor/monitor.py) against its natural-language specification.

The Python module is shallowly embedded below: the Redis store becomes an
explicit map from keys to entries (each entry remembering the store-level TTL
passed to `setex`), JSON documents become a structure of optional fields
(`dict.get` defaults are `Option.getD`), and an undeserializable value is the
`corrupt` constructor.  `should_delete` is a pure function from the current
time, the store and the observation to the new store plus an outcome tag; the
tag identifies which source branch (equivalently, which log line) was taken,
and `Outcome.ret` recovers the boolean the Python function returns.
-/
import Mathlib

namespace TorrentMonitor

/-- Redis key version prefix (`KEY_VERSION` in monitor.py). -/
def KEY_VERSION : String := "torrent_monitor_20250727a"

/-- Additional buffer added to Redis key expiration, in seconds
(`REDIS_EXPIRY_BUFFER` in monitor.py). -/
def REDIS_EXPIRY_BUFFER : Nat := 7200

/-- One element of the `TRACKED_STATES` table: a raw qBittorrent state, the
normalized cached state (lifecycle bucket) it maps to, and its TTL. -/
structure StateRule where
  state : String
  cached_state : String
  ttl_seconds : Nat
deriving DecidableEq, Repr

/-- The tracked-states table from monitor.py. -/
def TRACKED_STATES : List StateRule :=
  [⟨"completed", "completed", 86400⟩,
   ⟨"uploading", "completed", 86400⟩,
   ⟨"stalledUP", "completed", 86400⟩,
   ⟨"pausedUP", "completed", 86400⟩,
   ⟨"queuedUP", "completed", 86400⟩,
   ⟨"stalledDL", "stalledDL", 43200⟩,
   ⟨"metaDL", "metaDL", 21600⟩]

/-- `TRACKED_STATE_LOOKUP.get(status)`: find the rule for a raw state.  The
source builds a dict keyed by `state`; since the states in the table are
distinct, first-match lookup is equivalent. -/
def TRACKED_STATE_LOOKUP (status : String) : Option StateRule :=
  TRACKED_STATES.find? (fun s => s.state = status)

/-- `get_cache_key`: versioned Redis key for a torrent hash. -/
def get_cache_key (torrent_hash : String) : String :=
  KEY_VERSION ++ ":" ++ torrent_hash

/-- A parsed cached JSON document.  Every field is optional because the run
loop can write documents holding only `dlspeed`, and `should_delete` reads
each field with a `dict.get` default. -/
structure StoredDoc where
  expires_at : Option Nat
  state : Option String
  bytes : Option Nat
  dlspeed : Option (List Nat)
deriving DecidableEq, Repr

/-- A raw value held in Redis under a tracking key: either a document that
deserializes, or a value on which `json.loads` raises. -/
inductive StoredVal where
  | doc (d : StoredDoc)
  | corrupt
deriving DecidableEq, Repr

/-- A Redis entry: the store-level TTL that was passed to `setex`, plus the
stored value. -/
structure Entry where
  sttl : Nat
  val : StoredVal
deriving DecidableEq, Repr

/-- The Redis store, restricted to the tracking keys: a map from key to
entry. -/
def Store : Type := String → Option Entry

/-- `rdb.setex key sttl val`. -/
def storeSet (st : Store) (k : String) (e : Entry) : Store :=
  fun x => if x = k then some e else st x

/-- `rdb.delete key`. -/
def storeDelete (st : Store) (k : String) : Store :=
  fun x => if x = k then none else st x

/-- `rdb.get key` (the store-level TTL is not visible to `get`). -/
def storeGet (st : Store) (k : String) : Option StoredVal :=
  (st k).map Entry.val

/-- The empty store. -/
def storeEmpty : Store := fun _ => none

/-- Which branch of `should_delete` was taken.  Each constructor corresponds
to one return path (one log line) of the source; `Outcome.ret` is the boolean
actually returned. -/
inductive Outcome where
  | untracked
  | started
  | corruptReset
  | progressReset
  | stateReset
  | evict
  | stillTracking
deriving DecidableEq, Repr

/-- The boolean `should_delete` returns for each branch: `True` only on the
eviction branch. -/
def Outcome.ret : Outcome → Bool
  | .evict => true
  | _ => false

/-- `should_delete(torrent_hash, status, downloaded_bytes)` from monitor.py,
with `now = int(time.time())` and the Redis handle made explicit.  Returns
the store after the function's Redis effects together with the branch
taken. -/
def should_delete (now : Nat) (st : Store) (torrent_hash status : String)
    (downloaded_bytes : Nat) : Store × Outcome :=
  match TRACKED_STATE_LOOKUP status with
  | none =>
    -- torrent no longer in a tracked state: remove its cache, do not delete
    let key := get_cache_key torrent_hash
    if (st key).isSome then (storeDelete st key, .untracked)
    else (st, .untracked)
  | some tracking_info =>
    let ttl := tracking_info.ttl_seconds
    let new_expiry := now + ttl
    let key := get_cache_key torrent_hash
    match storeGet st key with
    | none =>
      -- first time seeing this torrent in this state: start tracking
      let payload : StoredDoc :=
        ⟨some new_expiry, some status, some downloaded_bytes, some []⟩
      (storeSet st key ⟨ttl + REDIS_EXPIRY_BUFFER, .doc payload⟩, .started)
    | some .corrupt =>
      -- corrupt cache: reset it
      let payload : StoredDoc :=
        ⟨some new_expiry, some status, some downloaded_bytes, some []⟩
      (storeSet st key ⟨ttl + REDIS_EXPIRY_BUFFER, .doc payload⟩, .corruptReset)
    | some (.doc cache) =>
      let cached_status := cache.state
      let cached_expiry := cache.expires_at.getD 0
      let cached_bytes := cache.bytes.getD 0
      let cached_speeds := cache.dlspeed.getD []
      if downloaded_bytes ≠ cached_bytes then
        -- progress was made: reset the expiry, clear speed history
        (storeSet st key ⟨ttl + REDIS_EXPIRY_BUFFER,
          .doc ⟨some new_expiry, some status, some downloaded_bytes, some []⟩⟩,
         .progressReset)
      else if cached_status ≠ some status then
        -- state changed: reset the expiry, keep speed history
        (storeSet st key ⟨ttl + REDIS_EXPIRY_BUFFER,
          .doc ⟨some new_expiry, some status, some downloaded_bytes,
                some cached_speeds⟩⟩,
         .stateReset)
      else if now ≥ cached_expiry then
        -- stuck past expiry: delete record, mark for deletion
        (storeDelete st key, .evict)
      else
        (st, .stillTracking)

/-- One torrent record of the qBittorrent snapshot, restricted to the fields
the monitor reads (`hash`, `name`, `state`, `downloaded`, `tags`, `private`,
`added_on`, `dlspeed`).  The `private` flag is named `isPrivate` because
`private` is a Lean keyword. -/
structure Torrent where
  hash : String
  name : String
  state : String
  downloaded : Nat
  tags : String
  isPrivate : Bool
  added_on : Int
  dlspeed : Nat
deriving DecidableEq, Repr

/-- Python's `str.split(",")` on a list of characters: cut at every comma,
keeping empty pieces.  (Defined by structural recursion so that concrete
instances reduce inside the kernel.) -/
def splitCommaAux : List Char → List Char → List String
  | [], acc => [String.mk acc.reverse]
  | c :: cs, acc =>
    if c = ',' then String.mk acc.reverse :: splitCommaAux cs []
    else splitCommaAux cs (c :: acc)

/-- `tags.split(",") if tags else []`: the tag list of a torrent. -/
def taglist (tags : String) : List String :=
  if tags = "" then [] else splitCommaAux tags.toList []

/-- `score_torrent(t)` from monitor.py: additive bonuses for the "vip" tag,
the private flag and the downloading / metaDL states.  The source computes
the score from the snapshot fields alone; the average download speed is no
longer used for scoring. -/
def score_torrent (t : Torrent) : Int :=
  let tl := taglist t.tags
  let score : Int := 0
  let score := if tl.contains "vip" then score + 10000 else score
  let score := if t.isPrivate then score + 1000 else score
  let score :=
    if t.state = "downloading" then score + 100
    else if t.state = "metaDL" then score + 50
    else score
  score

/-- The Python sort key `(score_torrent(t), -t.get("added_on", 0))`. -/
def sortKey (t : Torrent) : Int × Int :=
  (score_torrent t, -t.added_on)

/-- Lexicographic comparison of sort keys, i.e. the total preorder under
which Python's `sorted` orders the torrents. -/
def keyLE (a b : Torrent) : Prop :=
  (sortKey a).1 < (sortKey b).1 ∨
    ((sortKey a).1 = (sortKey b).1 ∧ (sortKey a).2 ≤ (sortKey b).2)

instance : DecidableRel keyLE := fun a b => by
  unfold keyLE; infer_instance

instance : IsTotal Torrent keyLE where
  total a b := by unfold keyLE; omega

instance : IsTrans Torrent keyLE where
  trans a b c := by unfold keyLE; omega

/-- `sorted(torrents, key=...)`: Python's `sorted` is a stable sort by the
key's lexicographic order, hence equal to insertion sort under `keyLE`. -/
def sorted_torrents (torrents : List Torrent) : List Torrent :=
  List.insertionSort keyLE torrents

/-- `hashes_ordered`: hashes in ascending score-sorted order. -/
def hashes_ordered (torrents : List Torrent) : List String :=
  (sorted_torrents torrents).map Torrent.hash

/-- `current_order`: hashes in the order qBittorrent reported them. -/
def current_order (torrents : List Torrent) : List String :=
  torrents.map Torrent.hash

/-- `reprioritize_queue(torrents)` from monitor.py, as the ordered list of
hashes posted to `torrents/topPrio`: nothing on an empty list, nothing when
the reversed sorted order already equals the current order, otherwise one
promotion per torrent in ascending `keyLE` order. -/
def reprioritize_commands (torrents : List Torrent) : List String :=
  if torrents = [] then []
  else if (hashes_ordered torrents).reverse = current_order torrents then []
  else hashes_ordered torrents

/-- Model of the external queue's `topPrio` command: the promoted hash moves
to the front, the rest keep their relative order. -/
def promote_to_front (order : List String) (h : String) : List String :=
  h :: order.filter (fun x => x != h)

/-- The external queue after a sequence of promote-to-front commands. -/
def applyPromotions (order : List String) (cmds : List String) : List String :=
  cmds.foldl promote_to_front order

/-- The front-to-back order `reprioritize_queue` aims for, spelled out:
score descending; among equal scores, the earlier-created torrent first. -/
def descLE (a b : Torrent) : Prop :=
  score_torrent b < score_torrent a ∨
    (score_torrent a = score_torrent b ∧ a.added_on ≤ b.added_on)

/-- The run loop's per-torrent download-speed bookkeeping (monitor.py lines
312–337): read the cached document, append the current `dlspeed` sample,
keep the last 10 samples, and `setex` the updated document back with
store-level TTL `REDIS_EXPIRY_BUFFER`.  An unreadable or absent document
contributes an empty history and an empty base document. -/
def update_dlspeed_history (st : Store) (t : Torrent) : Store :=
  let key := get_cache_key t.hash
  let raw := storeGet st key
  let dlspeed_list :=
    match raw with
    | some (.doc cache) => cache.dlspeed.getD []
    | _ => []
  let dlspeed_list := dlspeed_list ++ [t.dlspeed]
  let dlspeed_list :=
    if dlspeed_list.length > 10 then dlspeed_list.drop (dlspeed_list.length - 10)
    else dlspeed_list
  let cache : StoredDoc :=
    match raw with
    | some (.doc cache) => cache
    | _ => ⟨none, none, none, none⟩
  let cache := { cache with dlspeed := some dlspeed_list }
  storeSet st key ⟨REDIS_EXPIRY_BUFFER, .doc cache⟩

/-- One iteration of the run loop's torrent loop (monitor.py lines 304–347):
update the speed history, skip torrents tagged `full-series`, otherwise run
`should_delete` and, on `True`, issue the external delete command.
`delete_ok` is the success value returned by `delete_torrent`; the source
only logs it, so it influences neither the store nor the returned flag.
Returns the store after the iteration and whether the torrent was deleted
from qBittorrent. -/
def run_step (now : Nat) (st : Store) (t : Torrent) (delete_ok : Bool) :
    Store × Bool :=
  let st := update_dlspeed_history st t
  if (taglist t.tags).contains "full-series" then (st, false)
  else
    let r := should_delete now st t.hash t.state t.downloaded
    let _ := delete_ok
    (r.1, r.2.ret)

/-- A job observation together with the throughput history stored for it.
`score_torrent` in the source reads only the snapshot fields of the torrent,
so scoring a job in context simply ignores the history; the structure exists
to examine how the score relates to the stored history. -/
structure ScoredJob where
  torrent : Torrent
  history : List Nat
deriving DecidableEq, Repr

/-- The score of a job in context: the source computes it from the snapshot
fields alone (monitor.py lines 109–146). -/
def score_job (j : ScoredJob) : Int :=
  score_torrent j.torrent

/-- The trailing average of a throughput history as the run loop computes it
(monitor.py line 337): `int(sum(list)/len(list))` when non-empty, else 0. -/
def trailing_avg (l : List Nat) : Nat :=
  if l.isEmpty then 0 else l.sum / l.length

/-- `should_delete` applied at a sequence of observation times with the same
status and byte count (repeated passes over an unchanged torrent). -/
def passes (st : Store) (times : List Nat) (torrent_hash status : String)
    (downloaded_bytes : Nat) : Store × List Outcome :=
  match times with
  | [] => (st, [])
  | n :: ns =>
    let r := should_delete n st torrent_hash status downloaded_bytes
    let rest := passes r.1 ns torrent_hash status downloaded_bytes
    (rest.1, r.2 :: rest.2)

/-! ### Helper lemmas about the store -/

theorem storeSet_self (st : Store) (k : String) (e : Entry) :
    storeSet st k e k = some e := by
  simp [storeSet]

theorem storeDelete_self (st : Store) (k : String) :
    storeDelete st k k = none := by
  simp [storeDelete]

theorem storeGet_set_self (st : Store) (k : String) (sttl : Nat)
    (v : StoredVal) : storeGet (storeSet st k ⟨sttl, v⟩) k = some v := by
  simp [storeGet, storeSet]

/-! ### C1: eviction purges the record inside decide -/

/-- C1: for an observation of a job in a tracked raw state whose stored
record parses, with the observed byte count equal to the cached one, the
observed raw state equal to the cached one, and `now` at or past the cached
expiry, `should_delete` deletes the tracking key from the store and returns
the eviction outcome (`True`); moreover the run-loop iteration's resulting
store and flag never depend on whether the external delete command succeeds,
so the purge happens inside `should_delete`, before and regardless of the
external delete. -/
theorem evict_purges_record
    (now : Nat) (st : Store) (torrent_hash status : String)
    (downloaded_bytes : Nat) (info : StateRule) (d : StoredDoc)
    (hlook : TRACKED_STATE_LOOKUP status = some info)
    (hget : storeGet st (get_cache_key torrent_hash) = some (.doc d))
    (hbytes : downloaded_bytes = d.bytes.getD 0)
    (hstate : d.state = some status)
    (hexp : now ≥ d.expires_at.getD 0) :
    should_delete now st torrent_hash status downloaded_bytes
      = (storeDelete st (get_cache_key torrent_hash), .evict)
    ∧ (should_delete now st torrent_hash status downloaded_bytes).1
        (get_cache_key torrent_hash) = none
    ∧ (should_delete now st torrent_hash status downloaded_bytes).2.ret = true
    ∧ ∀ (now2 : Nat) (st2 : Store) (t : Torrent) (ok : Bool),
        run_step now2 st2 t ok = run_step now2 st2 t true := by
  have hmain :
      should_delete now st torrent_hash status downloaded_bytes
        = (storeDelete st (get_cache_key torrent_hash), .evict) := by
    unfold should_delete
    rw [hlook]
    dsimp only
    rw [hget]
    dsimp only
    rw [if_neg (by simp [hbytes]), if_neg (by simp [hstate]), if_pos hexp]
  refine ⟨hmain, ?_, ?_, ?_⟩
  · rw [hmain]; exact storeDelete_self st _
  · rw [hmain]; rfl
  · intro now2 st2 t ok; rfl

/-- Witness for C1 at a concrete input: the record for hash `"ha"` (state
`completed`, 5 bytes, expiry 100) is evicted at time 100. -/
theorem evict_purges_record_witness :
    TRACKED_STATE_LOOKUP "completed" = some ⟨"completed", "completed", 86400⟩
    ∧ storeGet
        (storeSet storeEmpty (get_cache_key "ha")
          ⟨93600, .doc ⟨some 100, some "completed", some 5, some [1, 2]⟩⟩)
        (get_cache_key "ha")
      = some (.doc ⟨some 100, some "completed", some 5, some [1, 2]⟩)
    ∧ (should_delete 100
        (storeSet storeEmpty (get_cache_key "ha")
          ⟨93600, .doc ⟨some 100, some "completed", some 5, some [1, 2]⟩⟩)
        "ha" "completed" 5).1 (get_cache_key "ha") = none
    ∧ (should_delete 100
        (storeSet storeEmpty (get_cache_key "ha")
          ⟨93600, .doc ⟨some 100, some "completed", some 5, some [1, 2]⟩⟩)
        "ha" "completed" 5).2.ret = true :=
  ⟨by decide, by decide,
    (evict_purges_record 100 _ "ha" "completed" 5
      ⟨"completed", "completed", 86400⟩
      ⟨some 100, some "completed", some 5, some [1, 2]⟩
      (by decide) (by decide) (by decide) (by decide) (by decide)).2.1,
    (evict_purges_record 100 _ "ha" "completed" 5
      ⟨"completed", "completed", 86400⟩
      ⟨some 100, some "completed", some 5, some [1, 2]⟩
      (by decide) (by decide) (by decide) (by decide) (by decide)).2.2.1⟩

/-! ### C2: forward progress resets the tracking record -/

/-- C2: for an observation of a job in a tracked raw state with an existing
parseable record whose cached byte count differs from the observed one,
`should_delete` rewrites the record with expiry `now + ttl` (the TTL of that
state's table entry), the observed byte count and raw state, an empty speed
history, and store-level TTL `ttl + REDIS_EXPIRY_BUFFER`, and returns the
progress-reset outcome, whose boolean is `False` (not evict). -/
theorem progress_resets_tracking
    (now : Nat) (st : Store) (torrent_hash status : String)
    (downloaded_bytes : Nat) (info : StateRule) (d : StoredDoc)
    (hlook : TRACKED_STATE_LOOKUP status = some info)
    (hget : storeGet st (get_cache_key torrent_hash) = some (.doc d))
    (hbytes : downloaded_bytes ≠ d.bytes.getD 0) :
    should_delete now st torrent_hash status downloaded_bytes
      = (storeSet st (get_cache_key torrent_hash)
          ⟨info.ttl_seconds + REDIS_EXPIRY_BUFFER,
           .doc ⟨some (now + info.ttl_seconds), some status,
                 some downloaded_bytes, some []⟩⟩,
         .progressReset)
    ∧ Outcome.progressReset.ret = false := by
  refine ⟨?_, rfl⟩
  unfold should_delete
  rw [hlook]
  dsimp only
  rw [hget]
  dsimp only
  rw [if_pos hbytes]

/-- Witness for C2: progress 100 → 150 at t=10 in state `stalledDL`
(TTL 43200) rewrites the record with expiry 43210 and empty history. -/
theorem progress_resets_tracking_witness :
    TRACKED_STATE_LOOKUP "stalledDL" = some ⟨"stalledDL", "stalledDL", 43200⟩
    ∧ storeGet
        (storeSet storeEmpty (get_cache_key "hc")
          ⟨50400, .doc ⟨some 43200, some "stalledDL", some 100, some [9]⟩⟩)
        (get_cache_key "hc")
      = some (.doc ⟨some 43200, some "stalledDL", some 100, some [9]⟩)
    ∧ (150 : Nat) ≠ 100
    ∧ should_delete 10
        (storeSet storeEmpty (get_cache_key "hc")
          ⟨50400, .doc ⟨some 43200, some "stalledDL", some 100, some [9]⟩⟩)
        "hc" "stalledDL" 150
      = (storeSet
          (storeSet storeEmpty (get_cache_key "hc")
            ⟨50400, .doc ⟨some 43200, some "stalledDL", some 100, some [9]⟩⟩)
          (get_cache_key "hc")
          ⟨43200 + REDIS_EXPIRY_BUFFER,
           .doc ⟨some (10 + 43200), some "stalledDL", some 150, some []⟩⟩,
         .progressReset) :=
  ⟨by decide, by decide, by decide,
    (progress_resets_tracking 10 _ "hc" "stalledDL" 150
      ⟨"stalledDL", "stalledDL", 43200⟩
      ⟨some 43200, some "stalledDL", some 100, some [9]⟩
      (by decide) (by decide) (by decide)).1⟩

/-! ### C3: a raw-state change resets the record, keeping the history -/

/-- C3: for an observation of a job in a tracked raw state with an existing
parseable record, unchanged byte count but a cached raw state different from
the observed one (even between two states of the same bucket),
`should_delete` rewrites the record with expiry `now + ttl`, the observed
raw state, and the cached speed history preserved, and returns the
state-reset outcome, whose boolean is `False` (not evict). -/
theorem state_change_resets_tracking
    (now : Nat) (st : Store) (torrent_hash status : String)
    (downloaded_bytes : Nat) (info : StateRule) (d : StoredDoc)
    (hlook : TRACKED_STATE_LOOKUP status = some info)
    (hget : storeGet st (get_cache_key torrent_hash) = some (.doc d))
    (hbytes : downloaded_bytes = d.bytes.getD 0)
    (hstate : d.state ≠ some status) :
    should_delete now st torrent_hash status downloaded_bytes
      = (storeSet st (get_cache_key torrent_hash)
          ⟨info.ttl_seconds + REDIS_EXPIRY_BUFFER,
           .doc ⟨some (now + info.ttl_seconds), some status,
                 some downloaded_bytes, some (d.dlspeed.getD [])⟩⟩,
         .stateReset)
    ∧ Outcome.stateReset.ret = false := by
  refine ⟨?_, rfl⟩
  unfold should_delete
  rw [hlook]
  dsimp only
  rw [hget]
  dsimp only
  rw [if_neg (by simp [hbytes]), if_pos hstate]

/-- Witness for C3: a job moves from raw state `uploading` to raw state
`completed` — both mapped to bucket `completed` — with unchanged bytes; the
record is rewritten with a fresh expiry and the speed history `[4, 6]` kept
verbatim. -/
theorem state_change_resets_tracking_witness :
    TRACKED_STATE_LOOKUP "completed" = some ⟨"completed", "completed", 86400⟩
    ∧ TRACKED_STATE_LOOKUP "uploading" = some ⟨"uploading", "completed", 86400⟩
    ∧ (⟨"uploading", "completed", 86400⟩ : StateRule).cached_state
        = (⟨"completed", "completed", 86400⟩ : StateRule).cached_state
    ∧ storeGet
        (storeSet storeEmpty (get_cache_key "hd")
          ⟨93600, .doc ⟨some 5000, some "uploading", some 77, some [4, 6]⟩⟩)
        (get_cache_key "hd")
      = some (.doc ⟨some 5000, some "uploading", some 77, some [4, 6]⟩)
    ∧ should_delete 20
        (storeSet storeEmpty (get_cache_key "hd")
          ⟨93600, .doc ⟨some 5000, some "uploading", some 77, some [4, 6]⟩⟩)
        "hd" "completed" 77
      = (storeSet
          (storeSet storeEmpty (get_cache_key "hd")
            ⟨93600, .doc ⟨some 5000, some "uploading", some 77, some [4, 6]⟩⟩)
          (get_cache_key "hd")
          ⟨86400 + REDIS_EXPIRY_BUFFER,
           .doc ⟨some (20 + 86400), some "completed", some 77, some [4, 6]⟩⟩,
         .stateReset) :=
  ⟨by decide, by decide, by decide, by decide,
    (state_change_resets_tracking 20 _ "hd" "completed" 77
      ⟨"completed", "completed", 86400⟩
      ⟨some 5000, some "uploading", some 77, some [4, 6]⟩
      (by decide) (by decide) (by decide) (by decide)).1⟩

/-! ### C4: an untracked raw state never evicts -/

/-- C4: for an observation whose raw state has no entry in the tracked-state
table, `should_delete` takes the untracked branch and returns `False`: the
tracking key is absent from the resulting store (deleted when it existed),
the store is untouched when no record existed, and repeated passes observing
the job in that state all return the untracked outcome — such a job is never
evicted. -/
theorem untracked_never_evicted
    (now : Nat) (st : Store) (torrent_hash status : String)
    (downloaded_bytes : Nat)
    (hun : TRACKED_STATE_LOOKUP status = none) :
    (should_delete now st torrent_hash status downloaded_bytes).2 = .untracked
    ∧ (should_delete now st torrent_hash status downloaded_bytes).2.ret = false
    ∧ (should_delete now st torrent_hash status downloaded_bytes).1
        (get_cache_key torrent_hash) = none
    ∧ (st (get_cache_key torrent_hash) = none →
        (should_delete now st torrent_hash status downloaded_bytes).1 = st)
    ∧ ∀ times : List Nat,
        ∀ o ∈ (passes st times torrent_hash status downloaded_bytes).2,
          o = Outcome.untracked := by
  have hstep : ∀ (n : Nat) (s : Store),
      should_delete n s torrent_hash status downloaded_bytes
        = (if (s (get_cache_key torrent_hash)).isSome then
            (storeDelete s (get_cache_key torrent_hash), .untracked)
           else (s, .untracked)) := by
    intro n s
    unfold should_delete
    rw [hun]
  refine ⟨?_, ?_, ?_, ?_, ?_⟩
  · rw [hstep]; split <;> rfl
  · rw [hstep]; split <;> rfl
  · rw [hstep]
    by_cases h : (st (get_cache_key torrent_hash)).isSome
    · rw [if_pos h]; exact storeDelete_self st _
    · rw [if_neg h]; simpa using h
  · intro habs
    rw [hstep, if_neg (by simp [habs])]
  · intro times
    induction times generalizing st with
    | nil => intro o ho; simp [passes] at ho
    | cons n ns ih =>
      intro o ho
      rw [passes] at ho
      rcases List.mem_cons.mp ho with h | h
      · rw [h, hstep]; split <;> rfl
      · exact ih _ _ h

/-- Witness for C4: a job observed in the unmapped state `downloading`
while a record exists has the record removed and is not evicted. -/
theorem untracked_never_evicted_witness :
    TRACKED_STATE_LOOKUP "downloading" = none
    ∧ (should_delete 50
        (storeSet storeEmpty (get_cache_key "he")
          ⟨93600, .doc ⟨some 40, some "completed", some 5, some []⟩⟩)
        "he" "downloading" 5).2.ret = false
    ∧ (should_delete 50
        (storeSet storeEmpty (get_cache_key "he")
          ⟨93600, .doc ⟨some 40, some "completed", some 5, some []⟩⟩)
        "he" "downloading" 5).1 (get_cache_key "he") = none :=
  ⟨by decide,
    (untracked_never_evicted 50 _ "he" "downloading" 5 (by decide)).2.1,
    (untracked_never_evicted 50 _ "he" "downloading" 5 (by decide)).2.2.1⟩

/-! ### C5: a corrupt record is reinitialized, never raised on -/

/-- C5: for an observation of a job in a tracked raw state whose stored
value fails to deserialize, `should_delete` rewrites the record exactly as
on a first observation — expiry `now + ttl`, the observed raw state and byte
count, empty speed history, store-level TTL `ttl + REDIS_EXPIRY_BUFFER` —
and returns a non-evict outcome: the resulting store is literally the store
a first observation (no record) would produce, where the outcome is the
tracking-started one. -/
theorem corrupt_record_reinitializes
    (now : Nat) (st : Store) (torrent_hash status : String)
    (downloaded_bytes : Nat) (info : StateRule)
    (hlook : TRACKED_STATE_LOOKUP status = some info)
    (hget : storeGet st (get_cache_key torrent_hash) = some .corrupt) :
    should_delete now st torrent_hash status downloaded_bytes
      = (storeSet st (get_cache_key torrent_hash)
          ⟨info.ttl_seconds + REDIS_EXPIRY_BUFFER,
           .doc ⟨some (now + info.ttl_seconds), some status,
                 some downloaded_bytes, some []⟩⟩,
         .corruptReset)
    ∧ Outcome.corruptReset.ret = false
    ∧ (should_delete now st torrent_hash status downloaded_bytes).1
        = (should_delete now
            (storeDelete st (get_cache_key torrent_hash))
            torrent_hash status downloaded_bytes).1
    ∧ (should_delete now
        (storeDelete st (get_cache_key torrent_hash))
        torrent_hash status downloaded_bytes).2 = .started := by
  have hmain :
      should_delete now st torrent_hash status downloaded_bytes
        = (storeSet st (get_cache_key torrent_hash)
            ⟨info.ttl_seconds + REDIS_EXPIRY_BUFFER,
             .doc ⟨some (now + info.ttl_seconds), some status,
                   some downloaded_bytes, some []⟩⟩,
           .corruptReset) := by
    unfold should_delete
    rw [hlook]
    dsimp only
    rw [hget]
  have hgone :
      storeGet (storeDelete st (get_cache_key torrent_hash))
        (get_cache_key torrent_hash) = none := by
    simp [storeGet, storeDelete_self]
  have hfresh :
      should_delete now (storeDelete st (get_cache_key torrent_hash))
          torrent_hash status downloaded_bytes
        = (storeSet (storeDelete st (get_cache_key torrent_hash))
            (get_cache_key torrent_hash)
            ⟨info.ttl_seconds + REDIS_EXPIRY_BUFFER,
             .doc ⟨some (now + info.ttl_seconds), some status,
                   some downloaded_bytes, some []⟩⟩,
           .started) := by
    unfold should_delete
    rw [hlook]
    dsimp only
    rw [hgone]
  refine ⟨hmain, rfl, ?_, by rw [hfresh]⟩
  rw [hmain, hfresh]
  funext x
  by_cases hx : x = get_cache_key torrent_hash <;>
    simp [storeSet, storeDelete, hx]

/-- Witness for C5: a corrupt value stored for hash `"hf"` in tracked state
`metaDL` is reinitialized with a fresh record and a non-evict outcome. -/
theorem corrupt_record_reinitializes_witness :
    TRACKED_STATE_LOOKUP "metaDL" = some ⟨"metaDL", "metaDL", 21600⟩
    ∧ storeGet (storeSet storeEmpty (get_cache_key "hf") ⟨28800, .corrupt⟩)
        (get_cache_key "hf") = some .corrupt
    ∧ should_delete 30
        (storeSet storeEmpty (get_cache_key "hf") ⟨28800, .corrupt⟩)
        "hf" "metaDL" 9
      = (storeSet (storeSet storeEmpty (get_cache_key "hf") ⟨28800, .corrupt⟩)
          (get_cache_key "hf")
          ⟨21600 + REDIS_EXPIRY_BUFFER,
           .doc ⟨some (30 + 21600), some "metaDL", some 9, some []⟩⟩,
         .corruptReset)
    ∧ Outcome.corruptReset.ret = false :=
  ⟨by decide, by decide,
    (corrupt_record_reinitializes 30
      (storeSet storeEmpty (get_cache_key "hf") ⟨28800, .corrupt⟩)
      "hf" "metaDL" 9
      ⟨"metaDL", "metaDL", 21600⟩ (by decide) (by decide)).1,
    (corrupt_record_reinitializes 30
      (storeSet storeEmpty (get_cache_key "hf") ⟨28800, .corrupt⟩)
      "hf" "metaDL" 9
      ⟨"metaDL", "metaDL", 21600⟩ (by decide) (by decide)).2.1⟩

/-! ### C6: reprioritization is idempotent -/

/-- C6: when the score-sorted desired hash sequence already equals the order
qBittorrent reported (or the torrent list is empty), `reprioritize_queue`
posts no promotion commands. -/
theorem reprioritize_idempotent (torrents : List Torrent)
    (h : (hashes_ordered torrents).reverse = current_order torrents
         ∨ torrents = []) :
    reprioritize_commands torrents = [] := by
  rcases h with h | h
  · unfold reprioritize_commands
    rcases eq_or_ne torrents [] with he | he
    · rw [if_pos he]
    · rw [if_neg he, if_pos h]
  · rw [h]; rfl

/-- Witness for C6: a two-torrent snapshot already listed in descending
score order (score 100 ahead of score 0) triggers no commands. -/
theorem reprioritize_idempotent_witness :
    (hashes_ordered
        [⟨"hx", "X", "downloading", 1, "", false, 3, 0⟩,
         ⟨"hy", "Y", "completed", 1, "", false, 9, 0⟩]).reverse
      = current_order
        [⟨"hx", "X", "downloading", 1, "", false, 3, 0⟩,
         ⟨"hy", "Y", "completed", 1, "", false, 9, 0⟩]
    ∧ reprioritize_commands
        [⟨"hx", "X", "downloading", 1, "", false, 3, 0⟩,
         ⟨"hy", "Y", "completed", 1, "", false, 9, 0⟩] = [] :=
  ⟨by decide,
    reprioritize_idempotent
      [⟨"hx", "X", "downloading", 1, "", false, 3, 0⟩,
       ⟨"hy", "Y", "completed", 1, "", false, 9, 0⟩]
      (Or.inl (by decide))⟩

/-! ### C7: the emitted promotion sequence and the resulting order -/

/-- The effect of a duplicate-free sequence of promote-to-front commands:
the promoted hashes end up in reverse promotion order, followed by the
untouched part of the original queue. -/
theorem applyPromotions_nodup (cmds : List String) (order : List String)
    (h : cmds.Nodup) :
    applyPromotions order cmds
      = cmds.reverse ++ order.filter (fun x => decide (x ∉ cmds)) := by
  induction cmds generalizing order with
  | nil =>
    simp [applyPromotions]
  | cons c cs ih =>
    have hc : c ∉ cs := (List.nodup_cons.mp h).1
    have hcs : cs.Nodup := (List.nodup_cons.mp h).2
    have step : applyPromotions order (c :: cs)
        = applyPromotions (promote_to_front order c) cs := rfl
    rw [step, ih (promote_to_front order c) hcs]
    have hfc : (promote_to_front order c).filter (fun x => decide (x ∉ cs))
        = c :: order.filter (fun x => decide (x ∉ c :: cs)) := by
      unfold promote_to_front
      rw [List.filter_cons_of_pos (by simpa using hc), List.filter_filter]
      congr 1
      apply List.filter_congr
      intro x _
      by_cases hxc : x = c
      · simp [hxc]
      · by_cases hxcs : x ∈ cs <;> simp [hxc, hxcs]
    rw [hfc]
    simp

/-- `keyLE` and `descLE` are mutually flipped: the ascending promotion
relation corresponds to the descending front-to-back relation. -/
theorem keyLE_flip (a b : Torrent) : keyLE a b ↔ descLE b a := by
  unfold keyLE descLE sortKey
  dsimp only
  omega

/-- C7 (amended): for a non-repeating, non-empty snapshot whose desired
order differs from the current one, `reprioritize_queue` posts exactly one
promotion per torrent — the promoted hashes are a permutation of the
snapshot's hashes — issued in ascending `keyLE` order (lowest score first;
among equal scores, the more recently added torrent first), and replaying
the promotions against the reported queue leaves it sorted by `descLE`:
score descending and, among equal scores, the EARLIER-added torrent ahead
of the more recently added one. -/
theorem reprioritize_reorders (torrents : List Torrent)
    (hne : torrents ≠ [])
    (hdiff : (hashes_ordered torrents).reverse ≠ current_order torrents)
    (hnd : (current_order torrents).Nodup) :
    reprioritize_commands torrents = (sorted_torrents torrents).map Torrent.hash
    ∧ (reprioritize_commands torrents).Perm (current_order torrents)
    ∧ List.Sorted keyLE (sorted_torrents torrents)
    ∧ applyPromotions (current_order torrents) (reprioritize_commands torrents)
        = ((sorted_torrents torrents).reverse).map Torrent.hash
    ∧ List.Sorted descLE ((sorted_torrents torrents).reverse) := by
  have hperm : (sorted_torrents torrents).Perm torrents :=
    List.perm_insertionSort keyLE torrents
  have hcmds : reprioritize_commands torrents
      = (sorted_torrents torrents).map Torrent.hash := by
    unfold reprioritize_commands
    rw [if_neg hne, if_neg hdiff]
    rfl
  have hpermh : ((sorted_torrents torrents).map Torrent.hash).Perm
      (current_order torrents) := hperm.map Torrent.hash
  have hndc : ((sorted_torrents torrents).map Torrent.hash).Nodup :=
    (hpermh.nodup_iff).mpr hnd
  refine ⟨hcmds, hcmds ▸ hpermh, List.sorted_insertionSort keyLE torrents,
    ?_, ?_⟩
  · rw [hcmds, applyPromotions_nodup _ _ hndc]
    have hfil : (current_order torrents).filter
        (fun x => decide (x ∉ (sorted_torrents torrents).map Torrent.hash))
        = [] := by
      rw [List.filter_eq_nil_iff]
      intro a ha
      simpa using hpermh.mem_iff.mpr ha
    rw [hfil, List.append_nil, List.map_reverse]
  · have hs : List.Sorted keyLE (sorted_torrents torrents) :=
      List.sorted_insertionSort keyLE torrents
    have : ((sorted_torrents torrents).reverse).Pairwise descLE := by
      rw [List.pairwise_reverse]
      exact hs.imp (fun hab => (keyLE_flip _ _).mp hab)
    exact this

/-- Witness for C7 (amended): two equal-score torrents, `"ha"` added at 10
and `"hb"` added at 5, reported as `["ha", "hb"]`; both are promoted, in the
order `["ha", "hb"]`, and the resulting queue is `["hb", "ha"]`. -/
theorem reprioritize_reorders_witness :
    ([⟨"ha", "A", "completed", 5, "", false, 10, 7⟩,
      ⟨"hb", "B", "completed", 5, "", false, 5, 3⟩] : List Torrent) ≠ []
    ∧ (hashes_ordered
        [⟨"ha", "A", "completed", 5, "", false, 10, 7⟩,
         ⟨"hb", "B", "completed", 5, "", false, 5, 3⟩]).reverse
      ≠ current_order
        [⟨"ha", "A", "completed", 5, "", false, 10, 7⟩,
         ⟨"hb", "B", "completed", 5, "", false, 5, 3⟩]
    ∧ (current_order
        [⟨"ha", "A", "completed", 5, "", false, 10, 7⟩,
         ⟨"hb", "B", "completed", 5, "", false, 5, 3⟩]).Nodup
    ∧ applyPromotions
        (current_order
          [⟨"ha", "A", "completed", 5, "", false, 10, 7⟩,
           ⟨"hb", "B", "completed", 5, "", false, 5, 3⟩])
        (reprioritize_commands
          [⟨"ha", "A", "completed", 5, "", false, 10, 7⟩,
           ⟨"hb", "B", "completed", 5, "", false, 5, 3⟩])
      = ((sorted_torrents
          [⟨"ha", "A", "completed", 5, "", false, 10, 7⟩,
           ⟨"hb", "B", "completed", 5, "", false, 5, 3⟩]).reverse).map
          Torrent.hash :=
  ⟨by decide, by decide, by decide,
    (reprioritize_reorders
      [⟨"ha", "A", "completed", 5, "", false, 10, 7⟩,
       ⟨"hb", "B", "completed", 5, "", false, 5, 3⟩]
      (by decide) (by decide) (by decide)).2.2.2.1⟩

/-- Counterexample to C7 as stated: torrents `"ha"` (added at 10, newer) and
`"hb"` (added at 5, older) have equal scores; the queue reported as
`["ha", "hb"]` is reordered, and replaying the emitted promotions yields
`["hb", "ha"]` — the OLDER torrent ends up ahead of the more recently
created one, contradicting the claimed recency tie-break. -/
theorem reprioritize_recency_counterexample :
    score_torrent ⟨"ha", "A", "completed", 5, "", false, 10, 7⟩
      = score_torrent ⟨"hb", "B", "completed", 5, "", false, 5, 3⟩
    ∧ (⟨"hb", "B", "completed", 5, "", false, 5, 3⟩ : Torrent).added_on
        < (⟨"ha", "A", "completed", 5, "", false, 10, 7⟩ : Torrent).added_on
    ∧ reprioritize_commands
        [⟨"ha", "A", "completed", 5, "", false, 10, 7⟩,
         ⟨"hb", "B", "completed", 5, "", false, 5, 3⟩]
      = ["ha", "hb"]
    ∧ applyPromotions ["ha", "hb"] ["ha", "hb"] = ["hb", "ha"]
    ∧ ("hb" : String) ≠ "ha" := by
  refine ⟨by decide, by decide, ?_, by decide, by decide⟩
  decide

/-! ### C8: the score is an additive function of tags, flag and state only -/

/-- C8 (amended): `score_torrent` equals the order-independent sum of a
10000 bonus for the `vip` tag, a 1000 bonus for the private flag, and a
two-tier transfer-state bonus (100 for `downloading`, 50 for `metaDL`); the
stored throughput history contributes no term, so two jobs identical except
for their histories receive equal scores. -/
theorem score_additive (t : Torrent) (h1 h2 : List Nat) :
    score_torrent t
      = (if (taglist t.tags).contains "vip" then (10000 : Int) else 0)
        + (if t.isPrivate then (1000 : Int) else 0)
        + (if t.state = "downloading" then (100 : Int)
           else if t.state = "metaDL" then (50 : Int) else 0)
    ∧ score_job ⟨t, h1⟩ = score_job ⟨t, h2⟩ := by
  constructor
  · unfold score_torrent
    dsimp only
    split_ifs <;> omega
  · rfl

/-- Counterexample to C8 as stated: two jobs identical except for their
stored throughput histories, whose trailing averages differ (100 vs 0),
receive the same score. -/
theorem score_history_counterexample :
    trailing_avg [100] ≠ trailing_avg []
    ∧ score_job ⟨⟨"hg", "G", "completed", 5, "", false, 0, 0⟩, [100]⟩
      = score_job ⟨⟨"hg", "G", "completed", 5, "", false, 0, 0⟩, []⟩ :=
  ⟨by decide, rfl⟩

/-! ### C9: store-level TTLs on tracking-key writes -/

/-- C9 (amended): every write `should_delete` itself performs (tracking
start, corruption reset, progress reset, state-change reset) stores the
record with store-level TTL `ttl + REDIS_EXPIRY_BUFFER` and logical expiry
`now + ttl`, so the store entry outlives the logical expiry by exactly the
buffer; the run loop's per-pass speed-history write, by contrast, always
uses store-level TTL `REDIS_EXPIRY_BUFFER` alone. -/
theorem store_ttl_on_writes
    (now : Nat) (st : Store) (torrent_hash status : String)
    (downloaded_bytes : Nat) (info : StateRule)
    (hlook : TRACKED_STATE_LOOKUP status = some info)
    (hout : (should_delete now st torrent_hash status downloaded_bytes).2
        = .started
      ∨ (should_delete now st torrent_hash status downloaded_bytes).2
        = .corruptReset
      ∨ (should_delete now st torrent_hash status downloaded_bytes).2
        = .progressReset
      ∨ (should_delete now st torrent_hash status downloaded_bytes).2
        = .stateReset) :
    (∃ d : StoredDoc,
      (should_delete now st torrent_hash status downloaded_bytes).1
          (get_cache_key torrent_hash)
        = some ⟨info.ttl_seconds + REDIS_EXPIRY_BUFFER, .doc d⟩
      ∧ d.expires_at = some (now + info.ttl_seconds))
    ∧ ∀ (st2 : Store) (t : Torrent), ∃ d2 : StoredDoc,
        update_dlspeed_history st2 t (get_cache_key t.hash)
          = some ⟨REDIS_EXPIRY_BUFFER, .doc d2⟩ := by
  constructor
  · unfold should_delete at hout ⊢
    rw [hlook] at hout ⊢
    dsimp only at hout ⊢
    rcases hg : storeGet st (get_cache_key torrent_hash) with _ | v
    · exact ⟨_, storeSet_self _ _ _, rfl⟩
    · cases v with
      | corrupt =>
        exact ⟨_, storeSet_self _ _ _, rfl⟩
      | doc cache =>
        rw [hg] at hout
        dsimp only at hout ⊢
        by_cases hb : downloaded_bytes ≠ cache.bytes.getD 0
        · rw [if_pos hb]
          exact ⟨_, storeSet_self _ _ _, rfl⟩
        · rw [if_neg hb] at hout ⊢
          by_cases hs : cache.state ≠ some status
          · rw [if_pos hs]
            exact ⟨_, storeSet_self _ _ _, rfl⟩
          · rw [if_neg hs] at hout
            by_cases he : now ≥ cache.expires_at.getD 0
            · rw [if_pos he] at hout
              simp at hout
            · rw [if_neg he] at hout
              simp at hout
  · intro st2 t
    exact ⟨_, by unfold update_dlspeed_history; exact storeSet_self _ _ _⟩

/-- Witness for C9 (amended): a progress reset writes the record with
store-level TTL `86400 + REDIS_EXPIRY_BUFFER` and expiry `10 + 86400`. -/
theorem store_ttl_on_writes_witness :
    TRACKED_STATE_LOOKUP "completed" = some ⟨"completed", "completed", 86400⟩
    ∧ ((should_delete 10
        (storeSet storeEmpty (get_cache_key "hh")
          ⟨93600, .doc ⟨some 86400, some "completed", some 1, some []⟩⟩)
        "hh" "completed" 2).2 = .started
      ∨ (should_delete 10
        (storeSet storeEmpty (get_cache_key "hh")
          ⟨93600, .doc ⟨some 86400, some "completed", some 1, some []⟩⟩)
        "hh" "completed" 2).2 = .corruptReset
      ∨ (should_delete 10
        (storeSet storeEmpty (get_cache_key "hh")
          ⟨93600, .doc ⟨some 86400, some "completed", some 1, some []⟩⟩)
        "hh" "completed" 2).2 = .progressReset
      ∨ (should_delete 10
        (storeSet storeEmpty (get_cache_key "hh")
          ⟨93600, .doc ⟨some 86400, some "completed", some 1, some []⟩⟩)
        "hh" "completed" 2).2 = .stateReset)
    ∧ ∃ d : StoredDoc,
        (should_delete 10
          (storeSet storeEmpty (get_cache_key "hh")
            ⟨93600, .doc ⟨some 86400, some "completed", some 1, some []⟩⟩)
          "hh" "completed" 2).1 (get_cache_key "hh")
          = some ⟨86400 + REDIS_EXPIRY_BUFFER, .doc d⟩
        ∧ d.expires_at = some (10 + 86400) :=
  ⟨by decide, by decide,
    (store_ttl_on_writes 10
      (storeSet storeEmpty (get_cache_key "hh")
        ⟨93600, .doc ⟨some 86400, some "completed", some 1, some []⟩⟩)
      "hh" "completed" 2 ⟨"completed", "completed", 86400⟩
      (by decide) (by decide)).1⟩

/-- Counterexample to C9 as stated: one pass over a still-tracked,
unchanged torrent leaves its tracking key written by the run loop's
speed-history `setex` with store-level TTL `REDIS_EXPIRY_BUFFER = 7200`,
not `86400 + 7200`, even though the record's logical expiry (999999) is far
beyond the store-level expiration moment `10 + 7200`. -/
theorem store_ttl_counterexample :
    TRACKED_STATE_LOOKUP "completed" = some ⟨"completed", "completed", 86400⟩
    ∧ (run_step 10
        (storeSet storeEmpty (get_cache_key "ha")
          ⟨93600, .doc ⟨some 999999, some "completed", some 5, some []⟩⟩)
        ⟨"ha", "A", "completed", 5, "", false, 0, 4⟩ true).1
        (get_cache_key "ha")
      = some ⟨REDIS_EXPIRY_BUFFER,
              .doc ⟨some 999999, some "completed", some 5, some [4]⟩⟩
    ∧ REDIS_EXPIRY_BUFFER ≠ 86400 + REDIS_EXPIRY_BUFFER
    ∧ 10 + REDIS_EXPIRY_BUFFER < 999999 := by
  refine ⟨by decide, ?_, by decide, by decide⟩
  decide

/-! ### C10: the run loop makes the tracking-start branch unreachable -/

/-- C10: in a pass iteration, the speed-history `setex` runs before
`should_delete` reads the tracking key, so the key always holds a parseable
document by the time `should_delete` runs and the tracking-started branch is
unreachable; in particular, a torrent's very first observation in a tracked
state reaches `should_delete` with the defaulted record the speed write just
created (no state, no bytes, no expiry, history `[dlspeed]`), and yields a
progress-reset (when its byte count is non-zero) or state-reset (when zero)
outcome — never tracking-started, and never eviction. -/
theorem first_observation_defaults
    (now : Nat) (st : Store) (t : Torrent) (info : StateRule)
    (hlook : TRACKED_STATE_LOOKUP t.state = some info)
    (hfirst : st (get_cache_key t.hash) = none) :
    storeGet (update_dlspeed_history st t) (get_cache_key t.hash)
      = some (.doc ⟨none, none, none, some [t.dlspeed]⟩)
    ∧ ((should_delete now (update_dlspeed_history st t)
          t.hash t.state t.downloaded).2 = .progressReset
      ∨ (should_delete now (update_dlspeed_history st t)
          t.hash t.state t.downloaded).2 = .stateReset)
    ∧ (should_delete now (update_dlspeed_history st t)
        t.hash t.state t.downloaded).2.ret = false
    ∧ ∀ (st2 : Store),
        (should_delete now (update_dlspeed_history st2 t)
          t.hash t.state t.downloaded).2 ≠ .started := by
  have hraw : storeGet st (get_cache_key t.hash) = none := by
    simp [storeGet, hfirst]
  have hupd : update_dlspeed_history st t
      = storeSet st (get_cache_key t.hash)
          ⟨REDIS_EXPIRY_BUFFER, .doc ⟨none, none, none, some [t.dlspeed]⟩⟩ := by
    unfold update_dlspeed_history
    dsimp only
    rw [hraw]
    simp
  have hget : storeGet (update_dlspeed_history st t) (get_cache_key t.hash)
      = some (.doc ⟨none, none, none, some [t.dlspeed]⟩) := by
    rw [hupd]
    simp [storeGet, storeSet_self]
  have houtc :
      (should_delete now (update_dlspeed_history st t)
          t.hash t.state t.downloaded).2 = .progressReset
      ∨ (should_delete now (update_dlspeed_history st t)
          t.hash t.state t.downloaded).2 = .stateReset := by
    unfold should_delete
    rw [hlook]
    dsimp only
    rw [hget]
    dsimp only
    by_cases hb : t.downloaded ≠
        (StoredDoc.mk none none none (some [t.dlspeed])).bytes.getD 0
    · rw [if_pos hb]
      exact Or.inl rfl
    · rw [if_neg hb,
        if_pos (show (StoredDoc.mk none none none
          (some [t.dlspeed])).state ≠ some t.state by simp)]
      exact Or.inr rfl
  refine ⟨hget, houtc, ?_, ?_⟩
  · rcases houtc with h | h <;> rw [h] <;> rfl
  · intro st2
    have hsome : ∃ d : StoredDoc,
        storeGet (update_dlspeed_history st2 t) (get_cache_key t.hash)
          = some (.doc d) :=
      ⟨_, by unfold update_dlspeed_history; exact storeGet_set_self _ _ _ _⟩
    obtain ⟨d, hd⟩ := hsome
    unfold should_delete
    rw [hlook]
    dsimp only
    rw [hd]
    dsimp only
    split_ifs <;> simp

/-- Witness for C10: hash `"ha"` first observed in state `completed` with 5
downloaded bytes; the pass's speed write creates the defaulted record and
`should_delete` takes the progress-reset branch. -/
theorem first_observation_defaults_witness :
    TRACKED_STATE_LOOKUP "completed" = some ⟨"completed", "completed", 86400⟩
    ∧ storeEmpty (get_cache_key "ha") = none
    ∧ storeGet
        (update_dlspeed_history storeEmpty
          ⟨"ha", "A", "completed", 5, "", false, 10, 7⟩)
        (get_cache_key "ha")
      = some (.doc ⟨none, none, none, some [7]⟩)
    ∧ (should_delete 99
        (update_dlspeed_history storeEmpty
          ⟨"ha", "A", "completed", 5, "", false, 10, 7⟩)
        "ha" "completed" 5).2.ret = false :=
  ⟨by decide, rfl,
    (first_observation_defaults 99 storeEmpty
      ⟨"ha", "A", "completed", 5, "", false, 10, 7⟩
      ⟨"completed", "completed", 86400⟩ (by decide) rfl).1,
    (first_observation_defaults 99 storeEmpty
      ⟨"ha", "A", "completed", 5, "", false, 10, 7⟩
      ⟨"completed", "completed", 86400⟩ (by decide) rfl).2.2.1⟩

end TorrentMonitor
